import Mathlib

/-!
# Order follow-up system: cart, checkout and admin alert view

A shallow embedding of `frontend/src/pages/CreateOrder.jsx` and of the data
refresh, the action handlers and the order and alert buttons of
`frontend/src/pages/AdminDashboard.jsx`.

Conventions of the embedding.

* React state is an explicit record; an event handler is a function from the
  state at the time of the event to the state once all of its `set...` calls
  have been applied.
* A network call is a function argument (the server's answer to a request);
  the requests a handler issues are returned next to the final state.  The
  dashboard handlers return the whole trace of their effects: requests,
  `window.confirm`, `window.alert` and `console.error`, in order.
* The price computation follows IEEE-754: `parseFloat` gives the binary64
  nearest to the numeral (ties to even, `+Infinity` on overflow), held as the
  rational it denotes, and `Math.round` and `|| 0` act on that value.
* The prices in the cart and their total are integers; on doubles integer
  addition is exact for totals below `2 ^ 53`.
* JavaScript strings are modelled by `String`; the characters the price regex
  keeps are ASCII, so working on code points or on UTF-16 units is the same.
-/

namespace CreateOrder

/-- A catalogue product after `useEffect` attached `priceNum`, as the cart holds
it: the price is an integer (the finite values of `priceNum` are). -/
structure Product where
  id : String
  name : String
  category : String
  price : String
  image : String
  priceNum : Int
  deriving DecidableEq, Repr

/-- The `formData` state. -/
structure FormData where
  name : String
  whatsapp_number : String
  deriving DecidableEq, Repr

/-- The `success` state when it is not `null`. -/
structure Success where
  orderId : String
  message : String
  deriving DecidableEq, Repr

/-- The `useState` cells of the `CreateOrder` component. -/
structure State where
  products : List Product
  cart : List Product
  formData : FormData
  loading : Bool
  success : Option Success
  error : Option String
  deriving DecidableEq, Repr

/-- The initial values passed to `useState`. -/
def State.init : State :=
  { products := [], cart := [], formData := { name := "", whatsapp_number := "" },
    loading := false, success := none, error := none }

/-! ## Cart operations -/

/-- Source: `setCart([...cart, product])`. -/
def addToCart (st : State) (product : Product) : State :=
  { st with cart := st.cart ++ [product] }

/-- Model of `Array.prototype.splice(start, deleteCount)` without inserted
items: a negative `start` counts from the end, a `start` past the end is the
length, and at most the remaining elements are deleted. -/
def splice {α : Type} (arr : List α) (start : Int) (deleteCount : Int) : List α :=
  let len : Int := arr.length
  let actualStart : Int := if start < 0 then max (len + start) 0 else min start len
  let actualDeleteCount : Int := min (max deleteCount 0) (len - actualStart)
  arr.take actualStart.toNat ++ arr.drop (actualStart.toNat + actualDeleteCount.toNat)

/-- Source: `const newCart = [...cart]; newCart.splice(index, 1); setCart(newCart)`. -/
def removeFromCart (st : State) (index : Int) : State :=
  let newCart := splice st.cart index 1
  { st with cart := newCart }

/-- Source: `cart.reduce((sum, item) => sum + item.priceNum, 0)`. -/
def calculateTotal (st : State) : Int :=
  st.cart.foldl (fun sum item => sum + item.priceNum) 0

/-- A user action on the cart: the "Add to Cart" button of a product or the
remove button of the cart line at a position. -/
inductive CartOp where
  | add (product : Product)
  | remove (index : Int)
  deriving DecidableEq, Repr

/-- One user action applied to the state. -/
def CartOp.apply (st : State) : CartOp → State
  | .add product => addToCart st product
  | .remove index => removeFromCart st index

/-- A sequence of user actions, applied in order. -/
def runOps (st : State) (ops : List CartOp) : State :=
  ops.foldl CartOp.apply st

/-! ## Order submission -/

/-- The body `{name, whatsapp_number, product_name, amount}` of `POST /orders/`. -/
structure OrderPayload where
  name : String
  whatsapp_number : String
  product_name : String
  amount : Int
  deriving DecidableEq, Repr

/-- What `handleSubmit` reads of a fulfilled `orderAPI.create`: `response.data.id`. -/
structure AxiosResponse where
  id : String
  deriving DecidableEq, Repr

/-- What `handleSubmit` reads of a rejected `orderAPI.create`:
`err.response?.data?.detail`, `none` when a link of the chain is missing. -/
structure AxiosError where
  detail : Option String
  deriving DecidableEq, Repr

/-- The operator `a || b` on an optional string: the empty string is falsy. -/
def orElseString (a : Option String) (b : String) : String :=
  match a with
  | some d => if d = "" then b else d
  | none => b

/-- The `payload` constant built inside the `try` block. -/
def buildPayload (st : State) : OrderPayload :=
  let productNames := String.intercalate ", " (st.cart.map Product.name)
  let totalAmount := calculateTotal st
  { name := st.formData.name,
    whatsapp_number := st.formData.whatsapp_number,
    product_name := productNames,
    amount := totalAmount }

/-- The submit handler.  `create` is the server's answer to `orderAPI.create`;
the result is the state after the handler has finished together with the
requests it issued, in order. -/
def handleSubmit (create : OrderPayload → Except AxiosError AxiosResponse) (st : State) :
    State × List OrderPayload :=
  if st.cart.length = 0 then
    ({ st with error := some "Please add at least one product to the cart." }, [])
  else
    let st1 := { st with loading := true, error := none, success := none }
    let payload := buildPayload st
    match create payload with
    | .ok response =>
      let st2 := { st1 with
        success := some
          { orderId := response.id,
            message := "Order placed successfully for " ++ toString st.cart.length
              ++ " items! WhatsApp confirmation sent." } }
      let st3 := { st2 with formData := { name := "", whatsapp_number := "" } }
      let st4 := { st3 with cart := [] }
      ({ st4 with loading := false }, [payload])
    | .error err =>
      let st2 := { st1 with
        error := some (orElseString err.detail
          "Failed to create order. Please check your connection.") }
      ({ st2 with loading := false }, [payload])

/-- A product with only the fields the cart uses filled in. -/
def sampleProduct (name : String) (priceNum : Int) : Product :=
  { id := "", name := name, category := "", price := "", image := "", priceNum := priceNum }

/-- The state of the spec's scenario: Rohu and Pomfret in the cart, Asha's
name and number in the form. -/
def sampleState : State :=
  { State.init with
    cart := [sampleProduct "Rohu" 300, sampleProduct "Pomfret" 450],
    formData := { name := "Asha", whatsapp_number := "+919999999999" } }

/-- A server that accepts every order. -/
def acceptAll : OrderPayload → Except AxiosError AxiosResponse :=
  fun _ => .ok { id := "order-1" }

/-- A server that rejects every order with a detail message. -/
def rejectAll : OrderPayload → Except AxiosError AxiosResponse :=
  fun _ => .error { detail := some "Invalid WhatsApp number" }

/-- A server that cannot be reached: the rejection carries no response. -/
def networkDown : OrderPayload → Except AxiosError AxiosResponse :=
  fun _ => .error { detail := none }

/-! ## Catalogue loading -/

/-- The characters the global replace of `/[^0-9.]/g` by `''` keeps: the class
`[0-9.]`. -/
def keepsChar (c : Char) : Bool :=
  c.isDigit || c == '.'

/-- Source: `p.price.replace(/[^0-9.]/g, '')`, as the list of remaining characters. -/
def stripPrice (price : String) : List Char :=
  price.data.filter keepsChar

/-- The value of one decimal digit. -/
def digitValue (c : Char) : Nat :=
  c.toNat - '0'.toNat

/-- The value of a run of decimal digits, most significant first. -/
def digitsValue (ds : List Char) : Nat :=
  ds.foldl (fun acc c => 10 * acc + digitValue c) 0

/-- A JavaScript Number as far as the price computation can produce one:
`NaN`, `+Infinity`, or a finite non-negative binary64 value, held as the
rational it denotes. -/
inductive JSNumber where
  | nan
  | infinity
  | finite (value : ℚ)
  deriving DecidableEq, Repr

/-- The integer nearest to a rational, a tie going to the even neighbour. -/
def roundTiesToEven (x : ℚ) : ℤ :=
  if x - ⌊x⌋ < 1 / 2 then ⌊x⌋
  else if 1 / 2 < x - ⌊x⌋ then ⌊x⌋ + 1
  else if ⌊x⌋ % 2 = 0 then ⌊x⌋ else ⌊x⌋ + 1

/-- The Number value of a non-negative mathematical value: the nearest
binary64 (53-bit significand, ties to even, gradual underflow below
`2 ^ (-1022)`), and `+Infinity` when the rounded value reaches `2 ^ 1024`.
The unit in the last place of the binade of `x` is `2 ^ (e - 52)`. -/
def toDouble (x : ℚ) : JSNumber :=
  if x ≤ 0 then .finite 0
  else
    let e : ℤ := max (Int.log 2 x) (-1022)
    let ulp : ℚ := 2 ^ (e - 52)
    let rounded : ℚ := roundTiesToEven (x / ulp) * ulp
    if 2 ^ 1024 ≤ rounded then .infinity else .finite rounded

/-- The longest prefix that is a decimal literal, as its integer digits and
its fraction digits: digits, then optionally a point and more digits.  Both
parts empty means that no prefix is a literal. -/
def leadingNumeral (str : List Char) : List Char × List Char :=
  let intDigits := str.takeWhile Char.isDigit
  let fracDigits :=
    match str.dropWhile Char.isDigit with
    | c :: rest => if c = '.' then rest.takeWhile Char.isDigit else []
    | [] => []
  (intDigits, fracDigits)

/-- The mathematical value of the decimal literal `intDigits.fracDigits`. -/
def numeralValue (intDigits fracDigits : List Char) : ℚ :=
  (digitsValue intDigits : ℚ) + (digitsValue fracDigits : ℚ) / 10 ^ fracDigits.length

/-- Model of `parseFloat` on a string of digits and points: the longest prefix
that is a decimal literal is read, the rest is ignored, and the result is the
Number value of the literal (correctly rounded, as the engines in use do);
without such a prefix the result is `NaN`.  The sign, exponent, `Infinity` and
leading white space of the full grammar cannot occur after `stripPrice`. -/
def parseFloat (str : List Char) : JSNumber :=
  let numeral := leadingNumeral str
  if numeral.1.isEmpty && numeral.2.isEmpty then .nan
  else toDouble (numeralValue numeral.1 numeral.2)

/-- Model of `Math.round`: `NaN` and `+Infinity` stay; otherwise the nearest
integer, a half going to the integer above. -/
def mathRound : JSNumber → JSNumber
  | .nan => .nan
  | .infinity => .infinity
  | .finite x => .finite ⌊x + 1 / 2⌋

/-- The operator `x || 0` on a Number: `NaN` and `0` are falsy. -/
def orZero : JSNumber → JSNumber
  | .nan => .finite 0
  | .infinity => .infinity
  | .finite x => if x = 0 then .finite 0 else .finite x

/-- Source: `Math.round(parseFloat(p.price.replace(/[^0-9.]/g, ''))) || 0`. -/
def priceNum (price : String) : JSNumber :=
  orZero (mathRound (parseFloat (stripPrice price)))

/-- A display price of 310 digits, the number `10 ^ 309`. -/
def hugePrice : String :=
  "1000000000000000000000000000000000000000000000000000000000000000000000000000000000000000000000000000000000000000000000000000000000000000000000000000000000000000000000000000000000000000000000000000000000000000000000000000000000000000000000000000000000000000000000000000000000000000000000000000000000000000000000"

end CreateOrder

namespace AdminDashboard

/-- An alert as the dashboard reads it from `GET /admin/alerts`. -/
structure Alert where
  id : String
  order_id : String
  reason : String
  description : String
  resolved : Bool
  created_at : String
  deriving DecidableEq, Repr

/-- An element of the right-hand column of an alert card: the "Cancel Order"
button (its click calls `handleCancelOrder(alert.order_id, alert.id)`), the
"Resolve" button (its click calls `handleResolveAlert(alert.id)`), or the
"Resolved" badge. -/
inductive AlertControl where
  | cancelOrderButton (orderId alertId : String)
  | resolveButton (alertId : String)
  | resolvedBadge
  deriving DecidableEq, Repr

/-- The text an element shows. -/
def AlertControl.label : AlertControl → String
  | .cancelOrderButton _ _ => "Cancel Order"
  | .resolveButton _ => "Resolve"
  | .resolvedBadge => "Resolved"

/-- The three conditional elements of an alert card, in source order; a
condition that is false renders nothing. -/
def alertControls (alert : Alert) : List AlertControl :=
  (if !alert.resolved && alert.reason == "CANCELLATION_REQUEST"
    then [AlertControl.cancelOrderButton alert.order_id alert.id] else [])
  ++ (if !alert.resolved then [AlertControl.resolveButton alert.id] else [])
  ++ (if alert.resolved then [AlertControl.resolvedBadge] else [])

/-- The texts an alert card shows in its right-hand column. -/
def alertLabels (alert : Alert) : List String :=
  (alertControls alert).map AlertControl.label

/-! ## Dashboard state, requests and effects -/

/-- An order as the dashboard reads it from `GET /admin/orders`. -/
structure Order where
  id : String
  user_name : String
  whatsapp_number : String
  product_name : String
  amount : Int
  status : String
  payment_status : String
  sentiment : String
  feedback_rating : Nat
  feedback_text : String
  automation_enabled : Bool
  deriving DecidableEq, Repr

/-- A message log entry as the dashboard reads it from `GET /admin/messages`. -/
structure Message where
  id : String
  sent_at : String
  message_type : String
  is_incoming : Bool
  message_content : String
  sentiment : String
  deriving DecidableEq, Repr

/-- The `useState` cells of the `AdminDashboard` component. -/
structure State where
  orders : List Order
  messages : List Message
  alerts : List Alert
  loading : Bool
  activeTab : String
  selectedOrderId : Option String
  syncing : Bool
  deriving DecidableEq, Repr

/-- The initial values passed to `useState`. -/
def State.init : State :=
  { orders := [], messages := [], alerts := [], loading := true, activeTab := "orders",
    selectedOrderId := none, syncing := false }

/-- The guard `if (loading) return <div className="loading">...</div>`: whether
the component renders the loading screen instead of the tabs. -/
def rendersLoadingScreen (st : State) : Bool :=
  st.loading

/-- What a handler reads of a rejected request: `error.response?.data?.detail`
(`none` when a link of the chain is missing) and `error.message`. -/
structure ApiError where
  detail : Option String
  message : String
  deriving DecidableEq, Repr

/-- The calls of `orderAPI` and `adminAPI` the dashboard makes. -/
inductive Request where
  | updatePayment (orderId : String) (paid : Bool)
  | markInProcess (orderId : String)
  | markShipped (orderId : String)
  | markOutForDelivery (orderId : String)
  | markDelivered (orderId : String)
  | getOrders
  | getMessages
  | syncMessages
  | getAlerts
  | resolveAlert (alertId : String)
  | cancelOrder (orderId : String)
  deriving DecidableEq, Repr

/-- What a handler does besides setting state, in the order it does it: a
request sent, a `window.confirm` prompt, a `window.alert` box, a
`console.error` line (with its first argument). -/
inductive Effect where
  | request (r : Request)
  | confirm (text : String)
  | alert (text : String)
  | consoleError (text : String)
  deriving DecidableEq, Repr

/-- Whether an effect is a `window.alert` box. -/
def Effect.isAlert : Effect → Bool
  | .alert _ => true
  | _ => false

/-- Whether an effect is a request sent to the server. -/
def Effect.isRequest : Effect → Bool
  | .request _ => true
  | _ => false

/-- Whether an effect is one of the three fetches of `loadData`. -/
def Effect.isFetch : Effect → Bool
  | .request .getOrders => true
  | .request .getMessages => true
  | .request .getAlerts => true
  | _ => false

/-- The surroundings of one handler run: the user's answer to `window.confirm`
and the server's answer to each request (`mutate` answers the `PATCH` calls,
`syncMessages` carries `response.data.message`, the three fetches carry
`response.data`). -/
structure Env where
  confirm : Bool
  mutate : Request → Except ApiError Unit
  syncMessages : Except ApiError String
  getOrders : Except ApiError (List Order)
  getMessages : Except ApiError (List Message)
  getAlerts : Except ApiError (List Alert)

/-- Whether an answer is a fulfilled promise. -/
def isOk {ε α : Type} : Except ε α → Bool
  | .ok _ => true
  | .error _ => false

/-- Whether the server fulfils a request. -/
def Env.fulfils (env : Env) : Request → Bool
  | .getOrders => isOk env.getOrders
  | .getMessages => isOk env.getMessages
  | .getAlerts => isOk env.getAlerts
  | .syncMessages => isOk env.syncMessages
  | r => isOk (env.mutate r)

/-- Whether the server fulfils all three fetches of `loadData`, so that
`Promise.all` is fulfilled. -/
def Env.loads (env : Env) : Bool :=
  env.fulfils .getOrders && env.fulfils .getMessages && env.fulfils .getAlerts

/-- The three requests `loadData` passes to `Promise.all`, in source order. -/
def fetchRequests : List Effect :=
  [.request .getOrders, .request .getMessages, .request .getAlerts]

/-- The refresh.  All three requests are sent before `Promise.all` is awaited;
when all are fulfilled the three collections are replaced and `loading` is
cleared, and when one is rejected the `catch` logs to the console and clears
`loading`. -/
def loadData (env : Env) (st : State) : State × List Effect :=
  match env.getOrders, env.getMessages, env.getAlerts with
  | .ok ordersRes, .ok messagesRes, .ok alertsRes =>
    ({ st with orders := ordersRes, messages := messagesRes, alerts := alertsRes,
               loading := false }, fetchRequests)
  | _, _, _ =>
    ({ st with loading := false }, fetchRequests ++ [.consoleError "Failed to load data:"])

/-- The shape shared by the six `PATCH` handlers without a prompt:
`try { await request; await loadData() } catch { alert(failureText) }`. -/
def patchThenLoad (env : Env) (st : State) (req : Request) (failureText : String) :
    State × List Effect :=
  match env.mutate req with
  | .ok _ =>
    let refreshed := loadData env st
    (refreshed.1, .request req :: refreshed.2)
  | .error _ => (st, [.request req, .alert failureText])

/-- Source: `handleUpdatePayment`. -/
def handleUpdatePayment (env : Env) (st : State) (orderId : String) (paid : Bool) :
    State × List Effect :=
  patchThenLoad env st (.updatePayment orderId paid) "Failed to update payment status"

/-- Source: `handleMarkInProcess`. -/
def handleMarkInProcess (env : Env) (st : State) (orderId : String) : State × List Effect :=
  patchThenLoad env st (.markInProcess orderId) "Failed to mark as in process"

/-- Source: `handleMarkShipped`. -/
def handleMarkShipped (env : Env) (st : State) (orderId : String) : State × List Effect :=
  patchThenLoad env st (.markShipped orderId) "Failed to mark as shipped"

/-- Source: `handleMarkOutForDelivery`. -/
def handleMarkOutForDelivery (env : Env) (st : State) (orderId : String) :
    State × List Effect :=
  patchThenLoad env st (.markOutForDelivery orderId) "Failed to mark as out for delivery"

/-- Source: `handleMarkDelivered`. -/
def handleMarkDelivered (env : Env) (st : State) (orderId : String) : State × List Effect :=
  patchThenLoad env st (.markDelivered orderId) "Failed to mark as delivered"

/-- Source: `handleResolveAlert`. -/
def handleResolveAlert (env : Env) (st : State) (alertId : String) : State × List Effect :=
  patchThenLoad env st (.resolveAlert alertId) "Failed to resolve alert"

/-- The text of the `window.confirm` prompt of `handleCancelOrder`. -/
def cancelPrompt : String :=
  "Are you sure you want to cancel this order? The customer will be notified via WhatsApp."

/-- Source: `handleCancelOrder`; the alert id is received and not used. -/
def handleCancelOrder (env : Env) (st : State) (orderId : String) (_alertId : String) :
    State × List Effect :=
  if !env.confirm then
    (st, [.confirm cancelPrompt])
  else
    match env.mutate (.cancelOrder orderId) with
    | .ok _ =>
      let refreshed := loadData env st
      (refreshed.1,
        [.confirm cancelPrompt, .request (.cancelOrder orderId)] ++ refreshed.2
          ++ [.alert "Order cancelled and customer notified!"])
    | .error error =>
      (st,
        [.confirm cancelPrompt, .request (.cancelOrder orderId), .consoleError "Cancel error:",
          .alert ("Failed to cancel order: "
            ++ CreateOrder.orElseString error.detail error.message)])

/-- Source: `handleSyncMessages`. -/
def handleSyncMessages (env : Env) (st : State) : State × List Effect :=
  let st1 := { st with syncing := true }
  match env.syncMessages with
  | .ok message =>
    let refreshed := loadData env st1
    ({ refreshed.1 with syncing := false },
      [.request .syncMessages, .alert message] ++ refreshed.2)
  | .error _ =>
    ({ st1 with syncing := false },
      [.request .syncMessages, .consoleError "Sync error:",
        .alert "Failed to sync messages from Twilio"])

/-- A mutating action of the operator, with the arguments its handler gets. -/
inductive AdminAction where
  | updatePayment (orderId : String) (paid : Bool)
  | markInProcess (orderId : String)
  | markShipped (orderId : String)
  | markOutForDelivery (orderId : String)
  | markDelivered (orderId : String)
  | resolveAlert (alertId : String)
  | cancelOrder (orderId : String) (alertId : String)
  | syncMessages
  deriving DecidableEq, Repr

/-- The handler of an action. -/
def AdminAction.run (env : Env) (st : State) : AdminAction → State × List Effect
  | .updatePayment orderId paid => handleUpdatePayment env st orderId paid
  | .markInProcess orderId => handleMarkInProcess env st orderId
  | .markShipped orderId => handleMarkShipped env st orderId
  | .markOutForDelivery orderId => handleMarkOutForDelivery env st orderId
  | .markDelivered orderId => handleMarkDelivered env st orderId
  | .resolveAlert alertId => handleResolveAlert env st alertId
  | .cancelOrder orderId alertId => handleCancelOrder env st orderId alertId
  | .syncMessages => handleSyncMessages env st

/-- The mutation request of an action. -/
def AdminAction.request : AdminAction → Request
  | .updatePayment orderId paid => .updatePayment orderId paid
  | .markInProcess orderId => .markInProcess orderId
  | .markShipped orderId => .markShipped orderId
  | .markOutForDelivery orderId => .markOutForDelivery orderId
  | .markDelivered orderId => .markDelivered orderId
  | .resolveAlert alertId => .resolveAlert alertId
  | .cancelOrder orderId _ => .cancelOrder orderId
  | .syncMessages => .syncMessages

/-- Whether the handler of an action gets as far as sending its mutation
request: only the cancellation can stop before, at a declined prompt. -/
def AdminAction.proceeds (env : Env) : AdminAction → Bool
  | .cancelOrder _ _ => env.confirm
  | _ => true

/-- The three collections of a state. -/
def State.collections (st : State) : List Order × List Message × List Alert :=
  (st.orders, st.messages, st.alerts)

/-! ## Orders tab -/

/-- A button of the actions cell of an order row; its click calls the handler
with `order.id`. -/
inductive OrderControl where
  | markPaidButton (orderId : String)
  | shipButton (orderId : String)
  | outForDeliveryButton (orderId : String)
  | deliverButton (orderId : String)
  deriving DecidableEq, Repr

/-- The text a button shows. -/
def OrderControl.label : OrderControl → String
  | .markPaidButton _ => "Mark Paid"
  | .shipButton _ => "Ship"
  | .outForDeliveryButton _ => "Out for Delivery"
  | .deliverButton _ => "Deliver"

/-- Whether a button requests a lifecycle transition (all but "Mark Paid"). -/
def OrderControl.isLifecycle : OrderControl → Bool
  | .markPaidButton _ => false
  | _ => true

/-- The four conditional buttons of an order row, in source order. -/
def orderControls (order : Order) : List OrderControl :=
  (if order.payment_status == "PENDING" then [OrderControl.markPaidButton order.id] else [])
  ++ (if order.status == "PAID" || order.status == "IN_PROCESS"
    then [OrderControl.shipButton order.id] else [])
  ++ (if order.status == "SHIPPED" then [OrderControl.outForDeliveryButton order.id] else [])
  ++ (if order.status == "OUT_FOR_DELIVERY" then [OrderControl.deliverButton order.id] else [])

/-- The texts of the buttons an order row shows. -/
def orderLabels (order : Order) : List String :=
  (orderControls order).map OrderControl.label

/-! ## Sample surroundings -/

/-- An order that is paid and waits to be shipped. -/
def sampleOrder : Order :=
  { id := "order-1", user_name := "Asha", whatsapp_number := "+919999999999",
    product_name := "Rohu, Pomfret", amount := 750, status := "PAID",
    payment_status := "PAID", sentiment := "neutral", feedback_rating := 0,
    feedback_text := "", automation_enabled := true }

/-- An incoming message. -/
def sampleMessage : Message :=
  { id := "message-1", sent_at := "2024-01-01T10:00:00", message_type := "CUSTOMER_REPLY",
    is_incoming := true, message_content := "Please cancel my order", sentiment := "negative" }

/-- An open cancellation request for the sample order. -/
def sampleAlert : Alert :=
  { id := "alert-1", order_id := "order-1", reason := "CANCELLATION_REQUEST",
    description := "Customer asked to cancel", resolved := false,
    created_at := "2024-01-01T10:00:05" }

/-- A server that fulfils every request and holds one order, one message and
one alert, with an operator who accepts the cancellation prompt. -/
def serverStocked : Env :=
  { confirm := true,
    mutate := fun _ => .ok (),
    syncMessages := .ok "Synced 1 messages",
    getOrders := .ok [sampleOrder],
    getMessages := .ok [sampleMessage],
    getAlerts := .ok [sampleAlert] }

/-- A server whose every endpoint fails with a network error. -/
def serverDown : Env :=
  { confirm := true,
    mutate := fun _ => .error { detail := none, message := "Network Error" },
    syncMessages := .error { detail := none, message := "Network Error" },
    getOrders := .error { detail := none, message := "Network Error" },
    getMessages := .error { detail := none, message := "Network Error" },
    getAlerts := .error { detail := none, message := "Network Error" } }

/-- A server that fulfils every request and holds no data, with an operator
who declines the cancellation prompt. -/
def operatorDeclines : Env :=
  { confirm := false,
    mutate := fun _ => .ok (),
    syncMessages := .ok "Synced 0 messages",
    getOrders := .ok [],
    getMessages := .ok [],
    getAlerts := .ok [] }

/-- A server on which only the alerts endpoint is down. -/
def alertsDown : Env :=
  { operatorDeclines with
    confirm := true,
    getAlerts := .error { detail := none, message := "Network Error" } }

end AdminDashboard

namespace CreateOrder

/-! ## Shared lemmas -/

theorem takeWhile_isDigit_of_no_digit (l : List Char) (h : ∀ c ∈ l, c.isDigit = false) :
    l.takeWhile Char.isDigit = [] := by
  cases l with
  | nil => rfl
  | cons a t => simp [List.takeWhile, h a (List.mem_cons_self a t)]

theorem foldl_priceNum_add (cart : List Product) (acc : Int) :
    cart.foldl (fun sum item => sum + item.priceNum) acc
      = acc + (cart.map Product.priceNum).sum := by
  induction cart generalizing acc with
  | nil => simp
  | cons p ps ih => simp [List.foldl_cons, ih, add_assoc]

theorem splice_one_of_valid {α : Type} (arr : List α) (i : Nat) (h : i < arr.length) :
    splice arr (i : Int) 1 = arr.eraseIdx i := by
  have h1 : ¬ ((i : Int) < 0) := by omega
  have h2 : min (i : Int) (arr.length : Int) = i := by omega
  have h3 : min (max (1 : Int) 0) ((arr.length : Int) - i) = 1 := by omega
  simp only [splice, h1, if_false, h2, h3, Int.toNat_ofNat]
  rw [List.eraseIdx_eq_take_drop_succ]
  rfl

theorem floor_le_roundTiesToEven (x : ℚ) : ⌊x⌋ ≤ roundTiesToEven x := by
  unfold roundTiesToEven
  split_ifs <;> omega

theorem le_roundTiesToEven (x : ℚ) (j : ℤ) (h : (j : ℚ) ≤ x) : j ≤ roundTiesToEven x :=
  le_trans (Int.le_floor.mpr h) (floor_le_roundTiesToEven x)

theorem roundTiesToEven_lt (x : ℚ) (j : ℤ) (h : x < (j : ℚ) - 1 / 2) :
    roundTiesToEven x < j := by
  have hfl : ⌊x⌋ < j := by
    rw [Int.floor_lt]
    linarith
  unfold roundTiesToEven
  by_cases h1 : x - ⌊x⌋ < 1 / 2
  · rw [if_pos h1]; exact hfl
  · have h2 : ⌊x⌋ + 1 < j := by
      by_contra hcon
      have h3 : j ≤ ⌊x⌋ + 1 := by omega
      have h4 : (j : ℚ) ≤ (⌊x⌋ : ℚ) + 1 := by exact_mod_cast h3
      apply h1
      linarith
    rw [if_neg h1]
    split_ifs <;> omega

theorem mathRound_toDouble_short (m k : ℕ) (hk : k ≤ 15) (hm : m < 10 ^ 15) :
    mathRound (toDouble ((m : ℚ) / 10 ^ k)) = .finite ⌊(m : ℚ) / 10 ^ k + 1 / 2⌋ := by
  rcases Nat.eq_zero_or_pos m with rfl | hmpos
  · have h0 : ⌊(0 : ℚ) + 1 / 2⌋ = 0 := by
      rw [Int.floor_eq_iff]; norm_num
    simp [toDouble, mathRound, h0]
  have hpow : (0 : ℚ) < 10 ^ k := by positivity
  have hmq : (0 : ℚ) < (m : ℚ) := by exact_mod_cast hmpos
  have hmq15 : (m : ℚ) < 10 ^ 15 := by exact_mod_cast hm
  have hpow15 : (10 : ℚ) ^ k ≤ 10 ^ 15 := pow_le_pow_right₀ (by norm_num) hk
  have hpow1 : (1 : ℚ) ≤ 10 ^ k := one_le_pow₀ (by norm_num)
  obtain ⟨v, hvdef⟩ : ∃ v : ℚ, v = (m : ℚ) / 10 ^ k := ⟨_, rfl⟩
  rw [← hvdef]
  have hv : 0 < v := by rw [hvdef]; positivity
  have hvm : v * 10 ^ k = m := by rw [hvdef]; field_simp
  have hv_hi : v < 2 ^ (50 : ℤ) := by
    have : v ≤ m := by
      rw [hvdef, div_le_iff₀ hpow]
      nlinarith
    have h2 : (10 : ℚ) ^ 15 < 2 ^ (50 : ℤ) := by norm_num
    linarith
  have hv_lo : (2 : ℚ) ^ (-50 : ℤ) ≤ v := by
    have h1 : (1 : ℚ) ≤ m := by exact_mod_cast hmpos
    have h2 : (1 : ℚ) / 10 ^ 15 ≤ v := by
      rw [hvdef, div_le_div_iff₀ (by positivity) hpow]
      nlinarith
    have h3 : (2 : ℚ) ^ (-50 : ℤ) ≤ 1 / 10 ^ 15 := by norm_num
    exact le_trans h3 h2
  obtain ⟨e, hedef⟩ : ∃ e : ℤ, e = Int.log 2 v := ⟨_, rfl⟩
  have he_lo : (2 : ℚ) ^ e ≤ v := by
    have := Int.zpow_log_le_self (b := 2) (by norm_num) hv
    rw [hedef]; simpa using this
  have he50 : e < 50 := by
    rw [hedef]
    apply (Int.lt_zpow_iff_log_lt (b := 2) (by norm_num) hv).mp
    simpa using hv_hi
  have hem50 : -50 ≤ e := by
    rw [hedef]
    apply (Int.zpow_le_iff_le_log (b := 2) (by norm_num) hv).mp
    simpa using hv_lo
  have hmax : max (Int.log 2 v) (-1022) = e := by
    rw [← hedef]; omega
  obtain ⟨ulp, hulpdef⟩ : ∃ u : ℚ, u = 2 ^ (e - 52) := ⟨_, rfl⟩
  have hulp : 0 < ulp := by rw [hulpdef]; positivity
  -- the integer 2 ^ (51 - e), one half in units of ulp
  obtain ⟨t, htdef⟩ : ∃ t : ℤ, t = 2 ^ (51 - e).toNat := ⟨_, rfl⟩
  have ht : (t : ℚ) * ulp = 1 / 2 := by
    have h1 : ((51 - e).toNat : ℤ) = 51 - e := Int.toNat_of_nonneg (by omega)
    have h2 : (t : ℚ) = 2 ^ (51 - e) := by
      rw [htdef]; push_cast; rw [← zpow_natCast, h1]
    rw [h2, hulpdef, ← zpow_add₀ (by norm_num : (2 : ℚ) ≠ 0)]
    have : 51 - e + (e - 52) = -1 := by ring
    rw [this]; norm_num
  have hulp_le : ulp * 2 ^ 52 ≤ v := by
    have : ulp * 2 ^ 52 = 2 ^ e := by
      rw [hulpdef, ← zpow_natCast (2 : ℚ) 52, ← zpow_add₀ (by norm_num : (2 : ℚ) ≠ 0)]
      norm_num
    rw [this]; exact he_lo
  obtain ⟨n, hndef⟩ : ∃ n : ℤ, n = ⌊v + 1 / 2⌋ := ⟨_, rfl⟩
  have hn_le : (n : ℚ) ≤ v + 1 / 2 := by rw [hndef]; exact Int.floor_le _
  have hn_lt : v + 1 / 2 < (n : ℚ) + 1 := by rw [hndef]; exact Int.lt_floor_add_one _
  -- the gap between v and the half-integer above it
  have hgap : v + 1 / (2 * 10 ^ k) ≤ (n : ℚ) + 1 / 2 := by
    have h1 : (2 * (m : ℤ) : ℚ) < (2 * n + 1) * (10 : ℤ) ^ k := by
      push_cast
      rw [← hvm]
      nlinarith
    have h2 : 2 * (m : ℤ) < (2 * n + 1) * (10 : ℤ) ^ k := by exact_mod_cast h1
    have h3 : 2 * (m : ℤ) + 1 ≤ (2 * n + 1) * (10 : ℤ) ^ k := by omega
    have h4 : (2 * (m : ℚ) + 1) ≤ (2 * n + 1) * (10 : ℚ) ^ k := by exact_mod_cast h3
    rw [← hvm] at h4
    have h5 : v + 1 / (2 * 10 ^ k) = (2 * (v * 10 ^ k) + 1) / (2 * 10 ^ k) := by
      field_simp
      ring
    rw [h5, div_le_iff₀ (by positivity)]
    nlinarith
  have hhalfulp : ulp / 2 < 1 / (2 * 10 ^ k) := by
    rw [div_lt_div_iff₀ (by norm_num) (by positivity)]
    have h1 : ulp * 2 ^ 52 * 10 ^ k ≤ m := by
      rw [← hvm]
      exact mul_le_mul_of_nonneg_right hulp_le (le_of_lt hpow)
    have h2 : (2 : ℚ) * 10 ^ 15 < 2 ^ 52 := by norm_num
    nlinarith [mul_pos hulp hpow]
  obtain ⟨s, hsdef⟩ : ∃ s : ℤ, s = roundTiesToEven (v / ulp) := ⟨_, rfl⟩
  have hs_lo : (2 * n - 1) * t ≤ s := by
    rw [hsdef]
    apply le_roundTiesToEven
    rw [le_div_iff₀ hulp]
    push_cast
    have : (2 * (n : ℚ) - 1) * t * ulp = (2 * n - 1) * (t * ulp) := by ring
    rw [this, ht]
    linarith
  have hs_hi : s < (2 * n + 1) * t := by
    rw [hsdef]
    apply roundTiesToEven_lt
    rw [div_lt_iff₀ hulp]
    push_cast
    have : ((2 * (n : ℚ) + 1) * t - 1 / 2) * ulp = (2 * n + 1) * (t * ulp) - ulp / 2 := by ring
    rw [this, ht]
    linarith
  have hD_lo : (n : ℚ) - 1 / 2 ≤ s * ulp := by
    have h1 : (((2 * n - 1) * t : ℤ) : ℚ) ≤ s := by exact_mod_cast hs_lo
    have h2 := mul_le_mul_of_nonneg_right h1 (le_of_lt hulp)
    push_cast at h2
    have : (2 * (n : ℚ) - 1) * t * ulp = (2 * n - 1) * (t * ulp) := by ring
    rw [this, ht] at h2
    linarith
  have hD_hi : (s : ℚ) * ulp < n + 1 / 2 := by
    have h0 : s + 1 ≤ (2 * n + 1) * t := by omega
    have h1 : ((s + 1 : ℤ) : ℚ) ≤ (((2 * n + 1) * t : ℤ) : ℚ) := by exact_mod_cast h0
    have h2 := mul_le_mul_of_nonneg_right h1 (le_of_lt hulp)
    push_cast at h2
    have : (2 * (n : ℚ) + 1) * t * ulp = (2 * n + 1) * (t * ulp) := by ring
    rw [this, ht] at h2
    linarith
  have hfin : ¬ (2 : ℚ) ^ 1024 ≤ s * ulp := by
    have h1 : (2 : ℚ) ^ (50 : ℤ) + 1 ≤ 2 ^ 1024 := by norm_num
    linarith
  have hfloor : ⌊(s : ℚ) * ulp + 1 / 2⌋ = n := by
    rw [Int.floor_eq_iff]
    constructor <;> linarith
  have hnot : ¬ v ≤ 0 := not_le.mpr hv
  simp only [toDouble, if_neg hnot, hmax, ← hulpdef, ← hsdef, if_neg hfin, mathRound, hfloor]
  rw [hndef]

theorem digitValue_le_nine (c : Char) (h : c.isDigit = true) : digitValue c ≤ 9 := by
  simp only [Char.isDigit, Bool.and_eq_true, decide_eq_true_eq] at h
  have h2 : c.val.toNat ≤ 57 := h.2
  simp only [digitValue, Char.toNat]
  have : ('0' : Char).val.toNat = 48 := rfl
  omega

theorem digitsValue_append_singleton (ds : List Char) (c : Char) :
    digitsValue (ds ++ [c]) = 10 * digitsValue ds + digitValue c := by
  simp [digitsValue, List.foldl_append]

theorem digitsValue_lt (ds : List Char) (h : ∀ c ∈ ds, c.isDigit = true) :
    digitsValue ds < 10 ^ ds.length := by
  induction ds using List.reverseRecOn with
  | nil => simp [digitsValue]
  | append_singleton ds c ih =>
    have h1 := ih (fun d hd => h d (List.mem_append_left _ hd))
    have h2 := digitValue_le_nine c (h c (by simp))
    rw [digitsValue_append_singleton, List.length_append, List.length_singleton, pow_succ]
    omega

theorem leadingNumeral_digits (str : List Char) :
    (∀ c ∈ (leadingNumeral str).1, c.isDigit = true)
    ∧ (∀ c ∈ (leadingNumeral str).2, c.isDigit = true) := by
  constructor
  · intro c hc
    exact List.mem_takeWhile_imp hc
  · intro c hc
    simp only [leadingNumeral] at hc
    split at hc
    · split_ifs at hc
      · exact List.mem_takeWhile_imp hc
      · simp at hc
    · simp at hc

theorem numeralValue_eq_div (ip fp : List Char) :
    numeralValue ip fp
      = ((digitsValue ip * 10 ^ fp.length + digitsValue fp : ℕ) : ℚ) / 10 ^ fp.length := by
  unfold numeralValue
  push_cast
  field_simp

theorem numeral_lt (ip fp : List Char)
    (hip : ∀ c ∈ ip, c.isDigit = true) (hfp : ∀ c ∈ fp, c.isDigit = true) :
    digitsValue ip * 10 ^ fp.length + digitsValue fp < 10 ^ (ip ++ fp).length := by
  have h1 := digitsValue_lt ip hip
  have h2 := digitsValue_lt fp hfp
  rw [List.length_append, pow_add]
  have h3 : (digitsValue ip + 1) * 10 ^ fp.length ≤ 10 ^ ip.length * 10 ^ fp.length :=
    Nat.mul_le_mul_right _ h1
  nlinarith

theorem mathRound_toDouble_numeral (ip fp : List Char)
    (hip : ∀ c ∈ ip, c.isDigit = true) (hfp : ∀ c ∈ fp, c.isDigit = true)
    (hshort : (ip ++ fp).length ≤ 15) :
    mathRound (toDouble (numeralValue ip fp)) = .finite ⌊numeralValue ip fp + 1 / 2⌋ := by
  have hlt := numeral_lt ip fp hip hfp
  have h15 : digitsValue ip * 10 ^ fp.length + digitsValue fp < 10 ^ 15 :=
    lt_of_lt_of_le hlt (Nat.pow_le_pow_right (by norm_num) hshort)
  have hk : fp.length ≤ 15 := by
    rw [List.length_append] at hshort; omega
  rw [numeralValue_eq_div]
  exact mathRound_toDouble_short _ _ hk h15

theorem toDouble_of_binade (x : ℚ) (e : ℤ) (hx : 0 < x)
    (hlo : (2 : ℚ) ^ e ≤ x) (hhi : x < (2 : ℚ) ^ (e + 1)) (he : -1022 ≤ e) :
    toDouble x =
      if (2 : ℚ) ^ 1024 ≤ (roundTiesToEven (x / 2 ^ (e - 52)) : ℚ) * 2 ^ (e - 52)
      then .infinity
      else .finite ((roundTiesToEven (x / 2 ^ (e - 52)) : ℚ) * 2 ^ (e - 52)) := by
  have hlog : Int.log 2 x = e := by
    apply le_antisymm
    · have : Int.log 2 x < e + 1 := by
        apply (Int.lt_zpow_iff_log_lt (b := 2) (by norm_num) hx).mp
        simpa using hhi
      omega
    · apply (Int.zpow_le_iff_le_log (b := 2) (by norm_num) hx).mp
      simpa using hlo
  have hmax : max (Int.log 2 x) (-1022) = e := by rw [hlog]; omega
  have hnot : ¬ x ≤ 0 := not_le.mpr hx
  simp only [toDouble, if_neg hnot, hmax]

theorem roundTiesToEven_of_floor (x : ℚ) (f : ℤ) (hf : ⌊x⌋ = f) :
    roundTiesToEven x =
      if x - f < 1 / 2 then f
      else if 1 / 2 < x - f then f + 1
      else if f % 2 = 0 then f else f + 1 := by
  rw [← hf]; rfl

theorem toDouble_of_huge (x : ℚ) (hx : (2 : ℚ) ^ (1024 : ℕ) ≤ x) : toDouble x = .infinity := by
  have hpos : (0 : ℚ) < x := lt_of_lt_of_le (by positivity) hx
  obtain ⟨e, hedef⟩ : ∃ e : ℤ, e = Int.log 2 x := ⟨_, rfl⟩
  have he : 1024 ≤ e := by
    rw [hedef]
    apply (Int.zpow_le_iff_le_log (b := 2) (by norm_num) hpos).mp
    have hcast : ((2 : ℕ) : ℚ) ^ (1024 : ℤ) = (2 : ℚ) ^ (1024 : ℕ) := by norm_num
    rw [hcast]
    exact hx
  have he_lo : (2 : ℚ) ^ e ≤ x := by
    have := Int.zpow_log_le_self (b := 2) (by norm_num) hpos
    rw [hedef]; simpa using this
  have hmax : max (Int.log 2 x) (-1022) = e := by rw [← hedef]; omega
  have hulp : (0 : ℚ) < 2 ^ (e - 52) := by positivity
  have hsplit : (2 : ℚ) ^ e = ((4503599627370496 : ℤ) : ℚ) * 2 ^ (e - 52) := by
    have h52 : ((4503599627370496 : ℤ) : ℚ) = 2 ^ (52 : ℤ) := by norm_num
    rw [h52, ← zpow_add₀ (by norm_num : (2 : ℚ) ≠ 0)]
    congr 1
    ring
  have hs : (4503599627370496 : ℤ) ≤ roundTiesToEven (x / 2 ^ (e - 52)) := by
    apply le_roundTiesToEven
    rw [le_div_iff₀ hulp, ← hsplit]
    exact he_lo
  have hbig : (2 : ℚ) ^ (1024 : ℕ) ≤ (roundTiesToEven (x / 2 ^ (e - 52)) : ℚ) * 2 ^ (e - 52) := by
    have h1 : ((4503599627370496 : ℤ) : ℚ) ≤ roundTiesToEven (x / 2 ^ (e - 52)) := by
      exact_mod_cast hs
    have h2 := mul_le_mul_of_nonneg_right h1 (le_of_lt hulp)
    rw [← hsplit] at h2
    have h3 : (2 : ℚ) ^ (1024 : ℕ) ≤ 2 ^ e := by
      rw [← zpow_natCast (2 : ℚ) 1024]
      exact zpow_le_zpow_right₀ (by norm_num) (by exact_mod_cast he)
    exact le_trans h3 h2
  have hnot : ¬ x ≤ 0 := not_le.mpr hpos
  simp only [toDouble, if_neg hnot, hmax, if_pos hbig]

theorem leadingNumeral_of_no_digit (l : List Char) (h : ∀ c ∈ l, c.isDigit = false) :
    leadingNumeral l = ([], []) := by
  have h1 := takeWhile_isDigit_of_no_digit l h
  have h2 : l.dropWhile Char.isDigit = l := by
    cases l with
    | nil => rfl
    | cons a t => simp [List.dropWhile, h a (List.mem_cons_self a t)]
  unfold leadingNumeral
  rw [h1, h2]
  cases l with
  | nil => rfl
  | cons a t =>
    have h3 := takeWhile_isDigit_of_no_digit t (fun c hc => h c (List.mem_cons_of_mem a hc))
    by_cases ha : a = '.' <;> simp [ha, h3]

theorem parseFloat_of_no_digit (l : List Char) (h : ∀ c ∈ l, c.isDigit = false) :
    parseFloat l = .nan := by
  simp [parseFloat, leadingNumeral_of_no_digit l h]

theorem leadingNumeral_numeral (ip fp : List Char)
    (hip : ∀ c ∈ ip, c.isDigit = true) (hfp : ∀ c ∈ fp, c.isDigit = true) :
    leadingNumeral (ip ++ '.' :: fp) = (ip, fp) := by
  have hdot : ('.' : Char).isDigit = false := by decide
  have h1 : (ip ++ '.' :: fp).takeWhile Char.isDigit = ip := by
    rw [List.takeWhile_append_of_pos hip, List.takeWhile_cons_of_neg (by simp [hdot])]
    simp
  have h2 : (ip ++ '.' :: fp).dropWhile Char.isDigit = '.' :: fp := by
    rw [List.dropWhile_append_of_pos hip, List.dropWhile_cons_of_neg (by simp [hdot])]
  have h3 : fp.takeWhile Char.isDigit = fp := List.takeWhile_eq_self_iff.mpr hfp
  unfold leadingNumeral
  simp only [h1, h2, h3, if_true]

theorem leadingNumeral_digits_only (ip : List Char) (hip : ∀ c ∈ ip, c.isDigit = true) :
    leadingNumeral ip = (ip, []) := by
  have h1 : ip.takeWhile Char.isDigit = ip := List.takeWhile_eq_self_iff.mpr hip
  have h2 : ip.dropWhile Char.isDigit = [] := List.dropWhile_eq_nil_iff.mpr hip
  unfold leadingNumeral
  simp only [h1, h2]

theorem orZero_finite (x : ℚ) : orZero (.finite x) = .finite x := by
  simp only [orZero]
  split_ifs with h
  · rw [h]
  · rfl

theorem numeralValue_nonneg (ip fp : List Char) : 0 ≤ numeralValue ip fp := by
  unfold numeralValue
  positivity

theorem priceNum_of_short (price : String) (ip fp : List Char)
    (hnum : leadingNumeral (stripPrice price) = (ip, fp))
    (hshort : (ip ++ fp).length ≤ 15) :
    priceNum price
      = .finite (if ip ++ fp = [] then 0 else ((⌊numeralValue ip fp + 1 / 2⌋ : ℤ) : ℚ)) := by
  have hdig := leadingNumeral_digits (stripPrice price)
  rw [hnum] at hdig
  by_cases hempty : ip ++ fp = []
  · obtain ⟨h1, h2⟩ := List.append_eq_nil.mp hempty
    simp [priceNum, parseFloat, hnum, h1, h2, mathRound, orZero]
  · have hne : ¬ (ip.isEmpty && fp.isEmpty) = true := by
      intro h
      simp only [Bool.and_eq_true, List.isEmpty_iff] at h
      exact hempty (by simp [h.1, h.2])
    simp only [priceNum, parseFloat, hnum, if_neg hne, if_neg hempty]
    rw [mathRound_toDouble_numeral ip fp hdig.1 hdig.2 hshort, orZero_finite]

/-! ## Claims -/

/-- C1: for every cart, and in particular for the cart reached from any cart
(the initial empty one included) by any sequence of add and remove actions, `calculateTotal` is the sum of
`priceNum` over the entries in the cart; it is 0 for the empty cart. -/
theorem calculateTotal_eq_sum (st : State) (ops : List CartOp) :
    calculateTotal st = (st.cart.map Product.priceNum).sum
    ∧ calculateTotal (runOps st ops) = ((runOps st ops).cart.map Product.priceNum).sum
    ∧ calculateTotal (runOps State.init ops)
        = ((runOps State.init ops).cart.map Product.priceNum).sum
    ∧ calculateTotal { st with cart := [] } = 0 := by
  refine ⟨?_, ?_, ?_, rfl⟩ <;> simp [calculateTotal, foldl_priceNum_add]

/-- C8: `addToCart` appends the product at the end of the cart: the length
grows by one, every earlier entry keeps its position, the new last entry is the
product, and adding the same product twice leaves two entries (nothing is
merged: each call raises the number of occurrences by one). -/
theorem addToCart_appends (st : State) (product : Product) :
    (addToCart st product).cart.length = st.cart.length + 1
    ∧ (∀ i : Fin st.cart.length, (addToCart st product).cart[i.val]? = some (st.cart.get i))
    ∧ (addToCart st product).cart[st.cart.length]? = some product
    ∧ (addToCart (addToCart st product) product).cart = st.cart ++ [product, product]
    ∧ (addToCart st product).cart.count product = st.cart.count product + 1 := by
  refine ⟨?_, ?_, ?_, ?_, ?_⟩
  · simp [addToCart]
  · intro i
    simp only [addToCart]
    rw [List.getElem?_append_left i.isLt]
    exact List.getElem?_eq_getElem i.isLt
  · simp [addToCart]
  · simp [addToCart]
  · simp [addToCart, List.count_append]

/-- C9: for an index inside the cart, `removeFromCart` deletes exactly the
entry at that position: the length shrinks by one, entries before the index
keep their positions, and every later entry moves down by one. -/
theorem removeFromCart_deletes_at (st : State) (index : Int)
    (h0 : 0 ≤ index) (h1 : index < st.cart.length) :
    (removeFromCart st index).cart.length + 1 = st.cart.length
    ∧ (∀ j : Nat, (j : Int) < index → (removeFromCart st index).cart[j]? = st.cart[j]?)
    ∧ (∀ j : Nat, index ≤ (j : Int) →
        (removeFromCart st index).cart[j]? = st.cart[j + 1]?) := by
  obtain ⟨i, rfl⟩ := Int.eq_ofNat_of_zero_le h0
  have hi : i < st.cart.length := by exact_mod_cast h1
  have hcart : (removeFromCart st (i : Int)).cart = st.cart.eraseIdx i := by
    simp only [removeFromCart]
    exact splice_one_of_valid st.cart i hi
  rw [hcart]
  refine ⟨?_, ?_, ?_⟩
  · rw [List.length_eraseIdx, if_pos hi]; omega
  · intro j hj
    have hj2 : j < i := by exact_mod_cast hj
    rw [List.getElem?_eraseIdx, if_pos hj2]
  · intro j hj
    have hj2 : ¬ j < i := by
      have : i ≤ j := by exact_mod_cast hj
      omega
    rw [List.getElem?_eraseIdx, if_neg hj2]

/-- Witness for C9: removing position 0 of the two-entry sample cart. -/
theorem removeFromCart_deletes_at_witness :
    (0 : Int) ≤ 0 ∧ (0 : Int) < sampleState.cart.length
    ∧ (removeFromCart sampleState 0).cart.length + 1 = sampleState.cart.length
    ∧ (∀ j : Nat, (j : Int) < 0 → (removeFromCart sampleState 0).cart[j]? = sampleState.cart[j]?)
    ∧ (∀ j : Nat, (0 : Int) ≤ (j : Int) →
        (removeFromCart sampleState 0).cart[j]? = sampleState.cart[j + 1]?) :=
  ⟨by decide, by decide, removeFromCart_deletes_at sampleState 0 (by decide) (by decide)⟩

/-- C2: when the cart is empty, `handleSubmit` issues no request, sets the
error to the local validation message, and leaves the cart and both form
fields as they were. -/
theorem handleSubmit_empty_cart
    (create : OrderPayload → Except AxiosError AxiosResponse) (st : State)
    (hempty : st.cart = []) :
    (handleSubmit create st).2 = []
    ∧ (handleSubmit create st).1.error = some "Please add at least one product to the cart."
    ∧ (handleSubmit create st).1.cart = st.cart
    ∧ (handleSubmit create st).1.formData = st.formData := by
  simp [handleSubmit, hempty]

/-- Witness for C2: the form of the sample state with an emptied cart, against
a server that would accept the order. -/
theorem handleSubmit_empty_cart_witness :
    ({ sampleState with cart := [] } : State).cart = []
    ∧ (handleSubmit acceptAll { sampleState with cart := [] }).2 = []
    ∧ (handleSubmit acceptAll { sampleState with cart := [] }).1.error
        = some "Please add at least one product to the cart."
    ∧ (handleSubmit acceptAll { sampleState with cart := [] }).1.cart
        = ({ sampleState with cart := [] } : State).cart
    ∧ (handleSubmit acceptAll { sampleState with cart := [] }).1.formData
        = ({ sampleState with cart := [] } : State).formData :=
  ⟨rfl, handleSubmit_empty_cart acceptAll { sampleState with cart := [] } rfl⟩

/-- C3: for a non-empty cart of any size, when the creation request succeeds
`handleSubmit` ends with the cart empty and both form fields blank. -/
theorem handleSubmit_success_resets
    (create : OrderPayload → Except AxiosError AxiosResponse) (st : State)
    (response : AxiosResponse)
    (hcart : st.cart ≠ [])
    (hok : create (buildPayload st) = .ok response) :
    (handleSubmit create st).1.cart = []
    ∧ (handleSubmit create st).1.formData.name = ""
    ∧ (handleSubmit create st).1.formData.whatsapp_number = "" := by
  have hlen : ¬ st.cart.length = 0 := by
    simpa [List.length_eq_zero] using hcart
  simp [handleSubmit, hlen, hok]

/-- Witness for C3: the sample state against a server that accepts the order. -/
theorem handleSubmit_success_resets_witness :
    sampleState.cart ≠ []
    ∧ acceptAll (buildPayload sampleState) = .ok { id := "order-1" }
    ∧ (handleSubmit acceptAll sampleState).1.cart = []
    ∧ (handleSubmit acceptAll sampleState).1.formData.name = ""
    ∧ (handleSubmit acceptAll sampleState).1.formData.whatsapp_number = "" :=
  ⟨by decide, rfl,
    handleSubmit_success_resets acceptAll sampleState { id := "order-1" } (by decide) rfl⟩

/-- C4: for a non-empty cart, when the creation request fails `handleSubmit`
ends with the cart and both form fields equal to their values before the
submission. -/
theorem handleSubmit_failure_keeps
    (create : OrderPayload → Except AxiosError AxiosResponse) (st : State)
    (err : AxiosError)
    (hcart : st.cart ≠ [])
    (hfail : create (buildPayload st) = .error err) :
    (handleSubmit create st).1.cart = st.cart
    ∧ (handleSubmit create st).1.formData.name = st.formData.name
    ∧ (handleSubmit create st).1.formData.whatsapp_number = st.formData.whatsapp_number := by
  have hlen : ¬ st.cart.length = 0 := by
    simpa [List.length_eq_zero] using hcart
  simp [handleSubmit, hlen, hfail]

/-- Witness for C4: the sample state against a server that rejects the order. -/
theorem handleSubmit_failure_keeps_witness :
    sampleState.cart ≠ []
    ∧ rejectAll (buildPayload sampleState) = .error { detail := some "Invalid WhatsApp number" }
    ∧ (handleSubmit rejectAll sampleState).1.cart = sampleState.cart
    ∧ (handleSubmit rejectAll sampleState).1.formData.name = sampleState.formData.name
    ∧ (handleSubmit rejectAll sampleState).1.formData.whatsapp_number
        = sampleState.formData.whatsapp_number :=
  ⟨by decide, rfl,
    handleSubmit_failure_keeps rejectAll sampleState
      { detail := some "Invalid WhatsApp number" } (by decide) rfl⟩

/-- C5: for a non-empty cart, `handleSubmit` issues exactly one request, whose
body carries the form's name and number, the cart entries' names in cart order
joined with ", ", and `calculateTotal` of the cart as amount; for the cart
Rohu 300, Pomfret 450 with name Asha the body is
`{Asha, +919999999999, "Rohu, Pomfret", 750}`. -/
theorem handleSubmit_request_body
    (create : OrderPayload → Except AxiosError AxiosResponse) (st : State)
    (hcart : st.cart ≠ []) :
    (handleSubmit create st).2 =
      [{ name := st.formData.name,
         whatsapp_number := st.formData.whatsapp_number,
         product_name := ", ".intercalate (st.cart.map Product.name),
         amount := calculateTotal st }]
    ∧ (handleSubmit create sampleState).2 =
      [{ name := "Asha", whatsapp_number := "+919999999999",
         product_name := "Rohu, Pomfret", amount := 750 }] := by
  have hlen : ¬ st.cart.length = 0 := by
    simpa [List.length_eq_zero] using hcart
  have hlen2 : ¬ sampleState.cart.length = 0 := by decide
  have hpay : buildPayload sampleState =
      { name := "Asha", whatsapp_number := "+919999999999",
        product_name := "Rohu, Pomfret", amount := 750 } := by decide
  constructor
  · simp only [handleSubmit, if_neg hlen]
    cases create (buildPayload st) <;> rfl
  · simp only [handleSubmit, if_neg hlen2, hpay]
    cases create _ <;> rfl

/-- Witness for C5: the sample state against a server that accepts the order. -/
theorem handleSubmit_request_body_witness :
    sampleState.cart ≠ []
    ∧ (handleSubmit acceptAll sampleState).2 =
      [{ name := sampleState.formData.name,
         whatsapp_number := sampleState.formData.whatsapp_number,
         product_name := ", ".intercalate (sampleState.cart.map Product.name),
         amount := calculateTotal sampleState }]
    ∧ (handleSubmit acceptAll sampleState).2 =
      [{ name := "Asha", whatsapp_number := "+919999999999",
         product_name := "Rohu, Pomfret", amount := 750 }] :=
  ⟨by decide, handleSubmit_request_body acceptAll sampleState (by decide)⟩

set_option maxRecDepth 100000 in
/-- C6, as stated, fails: `parseFloat` gives the double nearest to the numeral,
so the price need not be the integer nearest to the number written.  The
17-digit numeral 0.49999999999999998 lies below one half and gets price 1;
the 16-digit integer 9007199254740993 gets price 9007199254740992; a numeral
of 310 digits gets `+Infinity`, which is no integer. -/
theorem priceNum_rounds_parsed_counterexample :
    (leadingNumeral (stripPrice "0.49999999999999998")
        = ("0".data, "49999999999999998".data)
      ∧ numeralValue "0".data "49999999999999998".data = 49999999999999998 / 10 ^ 17
      ∧ priceNum "0.49999999999999998" = .finite 1
      ∧ ¬ |numeralValue "0".data "49999999999999998".data - 1| ≤ 1 / 2)
    ∧ (leadingNumeral (stripPrice "9007199254740993") = ("9007199254740993".data, [])
      ∧ numeralValue "9007199254740993".data [] = 9007199254740993
      ∧ priceNum "9007199254740993" = .finite 9007199254740992)
    ∧ (priceNum hugePrice = .infinity ∧ ∀ n : ℤ, priceNum hugePrice ≠ .finite n) := by
  refine ⟨?_, ?_, ?_⟩
  · have h1 : leadingNumeral (stripPrice "0.49999999999999998")
        = ("0".data, "49999999999999998".data) := by decide
    have h2 : numeralValue "0".data "49999999999999998".data
        = 49999999999999998 / 10 ^ 17 := by
      have ha : digitsValue "0".data = 0 := by decide
      have hb : digitsValue "49999999999999998".data = 49999999999999998 := by decide
      have hc : "49999999999999998".data.length = 17 := by decide
      simp [numeralValue, ha, hb, hc]
    have h3 : toDouble (49999999999999998 / 10 ^ 17) = .finite (1 / 2) := by
      rw [toDouble_of_binade _ (-2) (by norm_num) (by norm_num) (by norm_num) (by norm_num)]
      have hf : ⌊(49999999999999998 / 10 ^ 17 : ℚ) / 2 ^ ((-2 : ℤ) - 52)⌋
          = 9007199254740991 := by
        rw [Int.floor_eq_iff]
        norm_num
      rw [roundTiesToEven_of_floor _ _ hf]
      norm_num
    refine ⟨h1, h2, ?_, ?_⟩
    · simp only [priceNum, parseFloat, h1, h2, h3]
      norm_num [mathRound, orZero]
    · rw [h2]
      norm_num [abs_le]
  · have h1 : leadingNumeral (stripPrice "9007199254740993")
        = ("9007199254740993".data, []) := by decide
    have h2 : numeralValue "9007199254740993".data [] = 9007199254740993 := by
      have ha : digitsValue "9007199254740993".data = 9007199254740993 := by decide
      have hb : digitsValue [] = 0 := by decide
      simp [numeralValue, ha, hb]
    have h3 : toDouble 9007199254740993 = .finite 9007199254740992 := by
      rw [toDouble_of_binade _ 53 (by norm_num) (by norm_num) (by norm_num) (by norm_num)]
      have hf : ⌊(9007199254740993 : ℚ) / 2 ^ ((53 : ℤ) - 52)⌋ = 4503599627370496 := by
        rw [Int.floor_eq_iff]
        norm_num
      rw [roundTiesToEven_of_floor _ _ hf]
      norm_num
    refine ⟨h1, h2, ?_⟩
    simp only [priceNum, parseFloat, h1, h2, h3]
    norm_num [mathRound, orZero]
  · have hinf : priceNum hugePrice = .infinity := by
      have h1 : leadingNumeral (stripPrice hugePrice) = (hugePrice.data, []) := by decide
      have ha : digitsValue hugePrice.data
          = 1000000000000000000000000000000000000000000000000000000000000000000000000000000000000000000000000000000000000000000000000000000000000000000000000000000000000000000000000000000000000000000000000000000000000000000000000000000000000000000000000000000000000000000000000000000000000000000000000000000000000000000000 := by decide
      have h2 : (2 : ℚ) ^ (1024 : ℕ) ≤ numeralValue hugePrice.data [] := by
        have hb : digitsValue [] = 0 := by decide
        simp only [numeralValue, ha, hb]
        norm_num
      simp only [priceNum, parseFloat, h1, toDouble_of_huge _ h2]
      simp [mathRound, orZero, hugePrice]
    exact ⟨hinf, fun n hn => by rw [hinf] at hn; exact JSNumber.noConfusion hn⟩

/-- C6, amended: when the numeral read from the stripped price has at most 15
digits, `priceNum` is a non-negative integer: 0 when no numeral is read, and
otherwise the integer nearest to the numeral's value, a half going upward.
When the whole stripped remainder is a decimal numeral, that numeral is the
one read.  The string "₹ 1,250.00" yields 1250. -/
theorem priceNum_rounds_parsed (price : String) (ip fp : List Char)
    (hnum : leadingNumeral (stripPrice price) = (ip, fp))
    (hshort : (ip ++ fp).length ≤ 15) :
    (∃ n : ℕ, priceNum price = .finite n
      ∧ (ip ++ fp = [] → n = 0)
      ∧ (ip ++ fp ≠ [] →
          (n : ℤ) = round (numeralValue ip fp) ∧ |numeralValue ip fp - n| ≤ 1 / 2))
    ∧ (∀ whole frac : List Char,
        (∀ c ∈ whole, c.isDigit = true) → (∀ c ∈ frac, c.isDigit = true) →
        (stripPrice price = whole ++ '.' :: frac ∨ (stripPrice price = whole ∧ frac = [])) →
        ip = whole ∧ fp = frac)
    ∧ priceNum "₹ 1,250.00" = .finite 1250 := by
  refine ⟨?_, ?_, ?_⟩
  · have hp := priceNum_of_short price ip fp hnum hshort
    by_cases hempty : ip ++ fp = []
    · refine ⟨0, ?_, fun _ => rfl, fun h => absurd hempty h⟩
      rw [hp, if_pos hempty]
      norm_num
    · have hnonneg : 0 ≤ ⌊numeralValue ip fp + 1 / 2⌋ := by
        rw [Int.floor_nonneg]
        have := numeralValue_nonneg ip fp
        linarith
      have hcast : ((⌊numeralValue ip fp + 1 / 2⌋.toNat : ℕ) : ℤ) = ⌊numeralValue ip fp + 1 / 2⌋ :=
        Int.toNat_of_nonneg hnonneg
      have hround : ((⌊numeralValue ip fp + 1 / 2⌋.toNat : ℕ) : ℤ) = round (numeralValue ip fp) := by
        rw [hcast, round_eq]
      refine ⟨⌊numeralValue ip fp + 1 / 2⌋.toNat, ?_, fun h => absurd h hempty, fun _ => ⟨hround, ?_⟩⟩
      · rw [hp, if_neg hempty]
        congr 1
        exact_mod_cast hcast.symm
      · have h2 : ((⌊numeralValue ip fp + 1 / 2⌋.toNat : ℕ) : ℚ) = (round (numeralValue ip fp) : ℚ) := by
          exact_mod_cast hround
        rw [h2]
        exact abs_sub_round _
  · intro whole frac hw hf hs
    rcases hs with hs | ⟨hs, rfl⟩
    · rw [hs, leadingNumeral_numeral whole frac hw hf] at hnum
      exact ⟨(Prod.mk.inj hnum).1.symm, (Prod.mk.inj hnum).2.symm⟩
    · rw [hs, leadingNumeral_digits_only whole hw] at hnum
      exact ⟨(Prod.mk.inj hnum).1.symm, (Prod.mk.inj hnum).2.symm⟩
  · have h1 : leadingNumeral (stripPrice "₹ 1,250.00") = ("1250".data, "00".data) := by decide
    rw [priceNum_of_short "₹ 1,250.00" "1250".data "00".data h1 (by decide)]
    have ha : digitsValue "1250".data = 1250 := by decide
    have hb : digitsValue "00".data = 0 := by decide
    have hv : numeralValue "1250".data "00".data = 1250 := by
      simp [numeralValue, ha, hb]
    have hfl : ⌊(1250 : ℚ) + 1 / 2⌋ = 1250 := by
      rw [Int.floor_eq_iff]; norm_num
    rw [if_neg (by decide), hv, hfl]
    norm_num

/-- Witness for C6 (amended): the price "₹ 450/kg", whose numeral is 450. -/
theorem priceNum_rounds_parsed_witness :
    leadingNumeral (stripPrice "₹ 450/kg") = ("450".data, [])
    ∧ ("450".data ++ []).length ≤ 15
    ∧ ∃ n : ℕ, priceNum "₹ 450/kg" = .finite n
      ∧ ("450".data ++ [] ≠ [] →
          (n : ℤ) = round (numeralValue "450".data [])
          ∧ |numeralValue "450".data [] - n| ≤ 1 / 2) :=
  ⟨by decide, by decide,
    (priceNum_rounds_parsed "₹ 450/kg" "450".data [] (by decide) (by decide)).1.imp
      fun _ h => ⟨h.1, h.2.2⟩⟩

/-- C7: a display price string without any digit character (the empty string
and strings that keep only decimal points included) gets `priceNum` 0; the
computation is total, so no error is raised. -/
theorem priceNum_no_digit (price : String)
    (hno : ∀ c ∈ price.data, c.isDigit = false) :
    priceNum price = .finite 0 := by
  have h : parseFloat (stripPrice price) = .nan := by
    apply parseFloat_of_no_digit
    intro c hc
    exact hno c (List.mem_of_mem_filter hc)
  simp [priceNum, h, mathRound, orZero]

/-- Witness for C7: a price that keeps only a decimal point. -/
theorem priceNum_no_digit_witness :
    (∀ c ∈ "Rs. N/A".data, c.isDigit = false) ∧ priceNum "Rs. N/A" = .finite 0 :=
  ⟨by decide, priceNum_no_digit "Rs. N/A" (by decide)⟩

end CreateOrder

namespace AdminDashboard

/-- C10: an alert card shows "Cancel Order" exactly when the alert is
unresolved and its reason is CANCELLATION_REQUEST, and shows "Resolve" exactly
when the alert is unresolved; an unresolved alert of another reason shows
"Resolve" alone. -/
theorem alert_buttons (alert : Alert) :
    ("Cancel Order" ∈ alertLabels alert
        ↔ (alert.resolved = false ∧ alert.reason = "CANCELLATION_REQUEST"))
    ∧ ("Resolve" ∈ alertLabels alert ↔ alert.resolved = false)
    ∧ (alert.resolved = false ∧ alert.reason ≠ "CANCELLATION_REQUEST" →
        alertControls alert = [AlertControl.resolveButton alert.id]
        ∧ alertLabels alert = ["Resolve"]) := by
  obtain ⟨id, order_id, reason, description, resolved, created_at⟩ := alert
  by_cases hr : reason = "CANCELLATION_REQUEST" <;> cases resolved <;>
    simp [alertLabels, alertControls, AlertControl.label, hr]

end AdminDashboard

namespace CreateOrder

/-- C11: when the creation request fails, the error shown is the server's
detail message when the rejection carries a non-empty one, and the generic
connectivity message when it carries none (or an empty one). -/
theorem handleSubmit_failure_message
    (create : OrderPayload → Except AxiosError AxiosResponse) (st : State)
    (err : AxiosError)
    (hcart : st.cart ≠ [])
    (hfail : create (buildPayload st) = .error err) :
    (∀ d : String, err.detail = some d → d ≠ "" →
        (handleSubmit create st).1.error = some d)
    ∧ (err.detail = none ∨ err.detail = some "" →
        (handleSubmit create st).1.error
          = some "Failed to create order. Please check your connection.") := by
  have hlen : ¬ st.cart.length = 0 := by
    simpa [List.length_eq_zero] using hcart
  constructor
  · intro d hd hne
    simp [handleSubmit, hlen, hfail, hd, orElseString, hne]
  · rintro (hd | hd) <;> simp [handleSubmit, hlen, hfail, hd, orElseString]

/-- Witness for C11: the sample state against a server that rejects with a
detail message, and against an unreachable server. -/
theorem handleSubmit_failure_message_witness :
    sampleState.cart ≠ []
    ∧ (handleSubmit rejectAll sampleState).1.error = some "Invalid WhatsApp number"
    ∧ (handleSubmit networkDown sampleState).1.error
        = some "Failed to create order. Please check your connection." :=
  ⟨by decide,
    (handleSubmit_failure_message rejectAll sampleState
      { detail := some "Invalid WhatsApp number" } (by decide) rfl).1
      "Invalid WhatsApp number" rfl (by decide),
    (handleSubmit_failure_message networkDown sampleState
      { detail := none } (by decide) rfl).2 (Or.inl rfl)⟩

end CreateOrder

namespace AdminDashboard

/-- C13: the buttons of an order row depend only on its two statuses: "Mark
Paid" is shown exactly when the payment status is PENDING, "Ship" exactly when
the status is PAID or IN_PROCESS, "Out for Delivery" exactly when it is SHIPPED,
"Deliver" exactly when it is OUT_FOR_DELIVERY; so at most one lifecycle button
is shown, and none for CREATED, PAYMENT_PENDING, DELIVERED or CANCELLED. -/
theorem order_buttons (order : Order) :
    ("Mark Paid" ∈ orderLabels order ↔ order.payment_status = "PENDING")
    ∧ ("Ship" ∈ orderLabels order ↔ (order.status = "PAID" ∨ order.status = "IN_PROCESS"))
    ∧ ("Out for Delivery" ∈ orderLabels order ↔ order.status = "SHIPPED")
    ∧ ("Deliver" ∈ orderLabels order ↔ order.status = "OUT_FOR_DELIVERY")
    ∧ ((orderControls order).filter OrderControl.isLifecycle).length ≤ 1
    ∧ (order.status ∈ ["CREATED", "PAYMENT_PENDING", "DELIVERED", "CANCELLED"] →
        (orderControls order).filter OrderControl.isLifecycle = [])
    ∧ (∀ other : Order, other.status = order.status →
        other.payment_status = order.payment_status →
        orderLabels other = orderLabels order) := by
  obtain ⟨id, user_name, whatsapp_number, product_name, amount, status, payment_status,
    sentiment, feedback_rating, feedback_text, automation_enabled⟩ := order
  refine ⟨?_, ?_, ?_, ?_, ?_, ?_, ?_⟩
  · by_cases hp : payment_status = "PENDING" <;>
    by_cases h1 : status = "PAID" <;> by_cases h2 : status = "IN_PROCESS" <;>
    by_cases h3 : status = "SHIPPED" <;> by_cases h4 : status = "OUT_FOR_DELIVERY" <;>
    simp [orderLabels, orderControls, OrderControl.label, hp, h1, h2, h3, h4]
  · by_cases hp : payment_status = "PENDING" <;>
    by_cases h1 : status = "PAID" <;> by_cases h2 : status = "IN_PROCESS" <;>
    by_cases h3 : status = "SHIPPED" <;> by_cases h4 : status = "OUT_FOR_DELIVERY" <;>
    simp [orderLabels, orderControls, OrderControl.label, hp, h1, h2, h3, h4]
  · by_cases hp : payment_status = "PENDING" <;>
    by_cases h1 : status = "PAID" <;> by_cases h2 : status = "IN_PROCESS" <;>
    by_cases h3 : status = "SHIPPED" <;> by_cases h4 : status = "OUT_FOR_DELIVERY" <;>
    simp [orderLabels, orderControls, OrderControl.label, hp, h1, h2, h3, h4]
  · by_cases hp : payment_status = "PENDING" <;>
    by_cases h1 : status = "PAID" <;> by_cases h2 : status = "IN_PROCESS" <;>
    by_cases h3 : status = "SHIPPED" <;> by_cases h4 : status = "OUT_FOR_DELIVERY" <;>
    simp [orderLabels, orderControls, OrderControl.label, hp, h1, h2, h3, h4]
  · by_cases hp : payment_status = "PENDING" <;>
    by_cases h1 : status = "PAID" <;> by_cases h2 : status = "IN_PROCESS" <;>
    by_cases h3 : status = "SHIPPED" <;> by_cases h4 : status = "OUT_FOR_DELIVERY" <;>
    simp_all [orderControls, OrderControl.isLifecycle]
  · intro hmem
    simp only [List.mem_cons, List.mem_singleton, List.not_mem_nil, or_false] at hmem
    rcases hmem with h | h | h | h <;>
    by_cases hp : payment_status = "PENDING" <;>
    simp_all [orderControls, OrderControl.isLifecycle]
  · intro other hs hp
    simp only at hs hp
    simp [orderLabels, orderControls, hs, hp, OrderControl.label]
    by_cases hp2 : payment_status = "PENDING" <;>
    by_cases h1 : status = "PAID" <;> by_cases h2 : status = "IN_PROCESS" <;>
    by_cases h3 : status = "SHIPPED" <;> by_cases h4 : status = "OUT_FOR_DELIVERY" <;>
    simp [hp2, h1, h2, h3, h4, OrderControl.label]

/-! ## Lemmas on the refresh -/

theorem loadData_of_loads (env : Env) (st : State) (h : env.loads = true) :
    ∃ ordersRes messagesRes alertsRes,
      env.getOrders = .ok ordersRes ∧ env.getMessages = .ok messagesRes
      ∧ env.getAlerts = .ok alertsRes
      ∧ loadData env st =
        ({ st with orders := ordersRes, messages := messagesRes, alerts := alertsRes,
                   loading := false }, fetchRequests) := by
  unfold loadData
  cases h1 : env.getOrders <;> cases h2 : env.getMessages <;> cases h3 : env.getAlerts <;>
    simp_all [Env.loads, Env.fulfils, isOk]

theorem loadData_of_not_loads (env : Env) (st : State) (h : env.loads = false) :
    loadData env st =
      ({ st with loading := false }, fetchRequests ++ [.consoleError "Failed to load data:"]) := by
  unfold loadData
  cases h1 : env.getOrders <;> cases h2 : env.getMessages <;> cases h3 : env.getAlerts <;>
    simp_all [Env.loads, Env.fulfils, isOk]

theorem loadData_requests (env : Env) (st : State) :
    (loadData env st).2.filter Effect.isRequest = fetchRequests := by
  cases h : env.loads
  · rw [loadData_of_not_loads env st h]; rfl
  · obtain ⟨_, _, _, _, _, _, hl⟩ := loadData_of_loads env st h
    rw [hl]; rfl

theorem loadData_collections_syncing (env : Env) (st : State) (b : Bool) :
    (loadData env { st with syncing := b }).1.collections = (loadData env st).1.collections := by
  cases h : env.loads
  · rw [loadData_of_not_loads env _ h, loadData_of_not_loads env st h]; rfl
  · obtain ⟨_, _, _, _, _, _, hl⟩ := loadData_of_loads env st h
    obtain ⟨_, _, _, h1, h2, h3, hl2⟩ := loadData_of_loads env { st with syncing := b } h
    rw [hl, hl2]
    simp_all [State.collections]

theorem patchThenLoad_ok (env : Env) (st : State) (req : Request) (text : String)
    (h : isOk (env.mutate req) = true) :
    patchThenLoad env st req text = ((loadData env st).1, .request req :: (loadData env st).2) := by
  unfold patchThenLoad
  cases hm : env.mutate req <;> simp_all [isOk]

theorem patchThenLoad_error (env : Env) (st : State) (req : Request) (text : String)
    (h : isOk (env.mutate req) = false) :
    patchThenLoad env st req text = (st, [.request req, .alert text]) := by
  unfold patchThenLoad
  cases hm : env.mutate req <;> simp_all [isOk]

/-! ## Claims on the handlers -/

/-- C12, as stated, fails: with the server down, `handleMarkShipped` sends its
mutation request and no fetch follows it. -/
theorem refresh_after_mutation_counterexample :
    serverDown.fulfils (.markShipped "order-1") = false
    ∧ (handleMarkShipped serverDown State.init "order-1").2
        = [.request (.markShipped "order-1"), .alert "Failed to mark as shipped"]
    ∧ (handleMarkShipped serverDown State.init "order-1").2.filter Effect.isFetch = [] := by
  decide

theorem run_requests_and_collections (env : Env) (st : State) (a : AdminAction) :
    (a.proceeds env = true → env.fulfils a.request = true →
      (a.run env st).2.filter Effect.isRequest = .request a.request :: fetchRequests
      ∧ (a.run env st).1.collections = (loadData env st).1.collections)
    ∧ (a.proceeds env = true → env.fulfils a.request = false →
      (a.run env st).2.filter Effect.isRequest = [.request a.request]
      ∧ (a.run env st).1.collections = st.collections)
    ∧ (a.proceeds env = false →
      (a.run env st).2.filter Effect.isRequest = []
      ∧ (a.run env st).1.collections = st.collections) := by
  have hreq := loadData_requests env st
  cases a with
  | cancelOrder orderId alertId =>
    refine ⟨?_, ?_, ?_⟩
    · intro hp hf
      simp only [AdminAction.proceeds] at hp
      simp only [AdminAction.request, Env.fulfils] at hf
      simp only [AdminAction.run, handleCancelOrder, hp, AdminAction.request]
      cases hm : env.mutate (.cancelOrder orderId) with
      | error e => simp [hm, isOk] at hf
      | ok u => simp [List.filter_append, List.filter_cons, Effect.isRequest, hreq]
    · intro hp hf
      simp only [AdminAction.proceeds] at hp
      simp only [AdminAction.request, Env.fulfils] at hf
      simp only [AdminAction.run, handleCancelOrder, hp, AdminAction.request]
      cases hm : env.mutate (.cancelOrder orderId) with
      | error e => simp [List.filter_cons, Effect.isRequest]
      | ok u => simp [hm, isOk] at hf
    · intro hp
      simp only [AdminAction.proceeds] at hp
      simp [AdminAction.run, handleCancelOrder, hp, List.filter_cons, Effect.isRequest]
  | syncMessages =>
    refine ⟨?_, ?_, ?_⟩
    · intro _ hf
      simp only [AdminAction.request, Env.fulfils] at hf
      simp only [AdminAction.run, handleSyncMessages, AdminAction.request]
      cases hm : env.syncMessages with
      | error e => simp [hm, isOk] at hf
      | ok message =>
        have h2 := loadData_requests env { st with syncing := true }
        have h3 := loadData_collections_syncing env st true
        simp only [State.collections] at h3 ⊢
        simp [List.filter_cons, Effect.isRequest, h2, h3]
    · intro _ hf
      simp only [AdminAction.request, Env.fulfils] at hf
      simp only [AdminAction.run, handleSyncMessages, AdminAction.request]
      cases hm : env.syncMessages with
      | error e => simp [List.filter_cons, Effect.isRequest, State.collections]
      | ok message => simp [hm, isOk] at hf
    · intro hp
      simp [AdminAction.proceeds] at hp
  | updatePayment orderId paid =>
    refine ⟨?_, ?_, ?_⟩
    · intro _ hf
      simp only [AdminAction.request, Env.fulfils] at hf
      simp [AdminAction.run, handleUpdatePayment, AdminAction.request,
        patchThenLoad_ok env st _ _ hf, List.filter_cons, Effect.isRequest, hreq]
    · intro _ hf
      simp only [AdminAction.request, Env.fulfils] at hf
      simp [AdminAction.run, handleUpdatePayment, AdminAction.request,
        patchThenLoad_error env st _ _ hf, List.filter_cons, Effect.isRequest]
    · intro hp
      simp [AdminAction.proceeds] at hp
  | markInProcess orderId =>
    refine ⟨?_, ?_, ?_⟩
    · intro _ hf
      simp only [AdminAction.request, Env.fulfils] at hf
      simp [AdminAction.run, handleMarkInProcess, AdminAction.request,
        patchThenLoad_ok env st _ _ hf, List.filter_cons, Effect.isRequest, hreq]
    · intro _ hf
      simp only [AdminAction.request, Env.fulfils] at hf
      simp [AdminAction.run, handleMarkInProcess, AdminAction.request,
        patchThenLoad_error env st _ _ hf, List.filter_cons, Effect.isRequest]
    · intro hp
      simp [AdminAction.proceeds] at hp
  | markShipped orderId =>
    refine ⟨?_, ?_, ?_⟩
    · intro _ hf
      simp only [AdminAction.request, Env.fulfils] at hf
      simp [AdminAction.run, handleMarkShipped, AdminAction.request,
        patchThenLoad_ok env st _ _ hf, List.filter_cons, Effect.isRequest, hreq]
    · intro _ hf
      simp only [AdminAction.request, Env.fulfils] at hf
      simp [AdminAction.run, handleMarkShipped, AdminAction.request,
        patchThenLoad_error env st _ _ hf, List.filter_cons, Effect.isRequest]
    · intro hp
      simp [AdminAction.proceeds] at hp
  | markOutForDelivery orderId =>
    refine ⟨?_, ?_, ?_⟩
    · intro _ hf
      simp only [AdminAction.request, Env.fulfils] at hf
      simp [AdminAction.run, handleMarkOutForDelivery, AdminAction.request,
        patchThenLoad_ok env st _ _ hf, List.filter_cons, Effect.isRequest, hreq]
    · intro _ hf
      simp only [AdminAction.request, Env.fulfils] at hf
      simp [AdminAction.run, handleMarkOutForDelivery, AdminAction.request,
        patchThenLoad_error env st _ _ hf, List.filter_cons, Effect.isRequest]
    · intro hp
      simp [AdminAction.proceeds] at hp
  | markDelivered orderId =>
    refine ⟨?_, ?_, ?_⟩
    · intro _ hf
      simp only [AdminAction.request, Env.fulfils] at hf
      simp [AdminAction.run, handleMarkDelivered, AdminAction.request,
        patchThenLoad_ok env st _ _ hf, List.filter_cons, Effect.isRequest, hreq]
    · intro _ hf
      simp only [AdminAction.request, Env.fulfils] at hf
      simp [AdminAction.run, handleMarkDelivered, AdminAction.request,
        patchThenLoad_error env st _ _ hf, List.filter_cons, Effect.isRequest]
    · intro hp
      simp [AdminAction.proceeds] at hp
  | resolveAlert alertId =>
    refine ⟨?_, ?_, ?_⟩
    · intro _ hf
      simp only [AdminAction.request, Env.fulfils] at hf
      simp [AdminAction.run, handleResolveAlert, AdminAction.request,
        patchThenLoad_ok env st _ _ hf, List.filter_cons, Effect.isRequest, hreq]
    · intro _ hf
      simp only [AdminAction.request, Env.fulfils] at hf
      simp [AdminAction.run, handleResolveAlert, AdminAction.request,
        patchThenLoad_error env st _ _ hf, List.filter_cons, Effect.isRequest]
    · intro hp
      simp [AdminAction.proceeds] at hp

/-- C12, amended: no handler of a mutating action updates the collections
itself.  When its mutation request is fulfilled, the requests the handler sends
are that request followed by the three fetches of a full refresh; when the
three fetches are fulfilled their answers replace orders, messages and alerts,
and when one is rejected the collections stay.  When the mutation request is
rejected it is the only request sent (no refresh) and the collections stay; a
cancellation declined at the prompt sends nothing. -/
theorem refresh_after_fulfilled_mutation (env : Env) (st : State) (a : AdminAction) :
    (a.proceeds env = true → env.fulfils a.request = true →
      (a.run env st).2.filter Effect.isRequest
        = [.request a.request, .request .getOrders, .request .getMessages, .request .getAlerts]
      ∧ (∀ ordersRes messagesRes alertsRes,
          env.getOrders = .ok ordersRes → env.getMessages = .ok messagesRes →
          env.getAlerts = .ok alertsRes →
          (a.run env st).1.orders = ordersRes ∧ (a.run env st).1.messages = messagesRes
          ∧ (a.run env st).1.alerts = alertsRes)
      ∧ (env.loads = false →
          (a.run env st).1.orders = st.orders ∧ (a.run env st).1.messages = st.messages
          ∧ (a.run env st).1.alerts = st.alerts))
    ∧ (a.proceeds env = true → env.fulfils a.request = false →
      (a.run env st).2.filter Effect.isRequest = [.request a.request]
      ∧ (a.run env st).1.orders = st.orders ∧ (a.run env st).1.messages = st.messages
      ∧ (a.run env st).1.alerts = st.alerts)
    ∧ (a.proceeds env = false →
      (a.run env st).2.filter Effect.isRequest = []
      ∧ (a.run env st).1.orders = st.orders ∧ (a.run env st).1.messages = st.messages
      ∧ (a.run env st).1.alerts = st.alerts) := by
  obtain ⟨hok, hrej, hdecl⟩ := run_requests_and_collections env st a
  refine ⟨?_, ?_, ?_⟩
  · intro hp hf
    obtain ⟨hreq, hcol⟩ := hok hp hf
    refine ⟨hreq, ?_, ?_⟩
    · intro ordersRes messagesRes alertsRes ho hm ha
      have hl : (loadData env st).1.collections = (ordersRes, messagesRes, alertsRes) := by
        simp [loadData, ho, hm, ha, State.collections]
      rw [hl] at hcol
      simp only [State.collections, Prod.mk.injEq] at hcol
      exact hcol
    · intro hl
      rw [loadData_of_not_loads env st hl] at hcol
      simp only [State.collections, Prod.mk.injEq] at hcol
      exact hcol
  · intro hp hf
    obtain ⟨hreq, hcol⟩ := hrej hp hf
    simp only [State.collections, Prod.mk.injEq] at hcol
    exact ⟨hreq, hcol⟩
  · intro hp
    obtain ⟨hreq, hcol⟩ := hdecl hp
    simp only [State.collections, Prod.mk.injEq] at hcol
    exact ⟨hreq, hcol⟩

/-- Witness for C12 (amended): marking an order shipped on a server that
fulfils every request and holds one order, one message and one alert, and on
a server that is down. -/
theorem refresh_after_fulfilled_mutation_witness :
    (((AdminAction.markShipped "order-1").run serverStocked State.init).2.filter
        Effect.isRequest
        = [.request (.markShipped "order-1"), .request .getOrders, .request .getMessages,
            .request .getAlerts]
      ∧ ((AdminAction.markShipped "order-1").run serverStocked State.init).1.orders
          = [sampleOrder]
      ∧ ((AdminAction.markShipped "order-1").run serverStocked State.init).1.messages
          = [sampleMessage]
      ∧ ((AdminAction.markShipped "order-1").run serverStocked State.init).1.alerts
          = [sampleAlert])
    ∧ (((AdminAction.markShipped "order-1").run serverDown State.init).2.filter
        Effect.isRequest = [.request (.markShipped "order-1")]
      ∧ ((AdminAction.markShipped "order-1").run serverDown State.init).1.orders = []) :=
  have hup := (refresh_after_fulfilled_mutation serverStocked State.init
    (.markShipped "order-1")).1 rfl rfl
  have hdown := (refresh_after_fulfilled_mutation serverDown State.init
    (.markShipped "order-1")).2.1 rfl rfl
  ⟨⟨hup.1, hup.2.1 [sampleOrder] [sampleMessage] [sampleAlert] rfl rfl rfl⟩,
    ⟨hdown.1, hdown.2.1⟩⟩

/-- C14 fails at `loadData`: with the server down on the first load, its
catch path sends the three fetches, logs to the console and clears `loading`;
no alert box is shown and nothing else in the state changes, the dashboard
having no error cell. -/
theorem loadData_failure_silent :
    serverDown.loads = false
    ∧ (loadData serverDown State.init).2
        = [.request .getOrders, .request .getMessages, .request .getAlerts,
            .consoleError "Failed to load data:"]
    ∧ (loadData serverDown State.init).2.filter Effect.isAlert = []
    ∧ (loadData serverDown State.init).1 = { State.init with loading := false } := by
  decide

/-- The catch paths one by one.  A rejected order creation sets a non-empty
inline error; every admin handler whose mutation request is rejected shows an
alert box; a `loadData` with a rejected fetch, for every server and state,
logs to the console, shows no alert and changes `loading` alone. -/
theorem catch_paths_notification
    (create : CreateOrder.OrderPayload → Except CreateOrder.AxiosError CreateOrder.AxiosResponse)
    (form : CreateOrder.State) (err : CreateOrder.AxiosError)
    (env : Env) (st : State) (a : AdminAction) :
    (form.cart ≠ [] → create (CreateOrder.buildPayload form) = .error err →
      ∃ text : String, (CreateOrder.handleSubmit create form).1.error = some text ∧ text ≠ "")
    ∧ (a.proceeds env = true → env.fulfils a.request = false →
      ∃ text : String, Effect.alert text ∈ (a.run env st).2)
    ∧ (env.loads = false →
      (loadData env st).2 = fetchRequests ++ [.consoleError "Failed to load data:"]
      ∧ (loadData env st).2.filter Effect.isAlert = []
      ∧ (loadData env st).1 = { st with loading := false }) := by
  refine ⟨?_, ?_, ?_⟩
  · intro hcart hfail
    have hlen : ¬ form.cart.length = 0 := by
      simpa [List.length_eq_zero] using hcart
    refine ⟨CreateOrder.orElseString err.detail
      "Failed to create order. Please check your connection.", ?_, ?_⟩
    · simp [CreateOrder.handleSubmit, hlen, hfail]
    · cases hd : err.detail with
      | none => simp [CreateOrder.orElseString]
      | some d =>
        by_cases h0 : d = ""
        · simp [CreateOrder.orElseString, h0]
        · simp [CreateOrder.orElseString, h0]
  · intro hp hf
    cases a with
    | cancelOrder orderId alertId =>
      simp only [AdminAction.proceeds] at hp
      simp only [AdminAction.request, Env.fulfils] at hf
      simp only [AdminAction.run, handleCancelOrder, hp]
      cases hm : env.mutate (.cancelOrder orderId) with
      | error e =>
        exact ⟨"Failed to cancel order: " ++ CreateOrder.orElseString e.detail e.message,
          by simp⟩
      | ok u => simp [hm, isOk] at hf
    | syncMessages =>
      simp only [AdminAction.request, Env.fulfils] at hf
      simp only [AdminAction.run, handleSyncMessages]
      cases hm : env.syncMessages with
      | error e => exact ⟨"Failed to sync messages from Twilio", by simp⟩
      | ok message => simp [hm, isOk] at hf
    | updatePayment orderId paid =>
      simp only [AdminAction.request, Env.fulfils] at hf
      exact ⟨"Failed to update payment status", by
        simp [AdminAction.run, handleUpdatePayment, patchThenLoad_error env st _ _ hf]⟩
    | markInProcess orderId =>
      simp only [AdminAction.request, Env.fulfils] at hf
      exact ⟨"Failed to mark as in process", by
        simp [AdminAction.run, handleMarkInProcess, patchThenLoad_error env st _ _ hf]⟩
    | markShipped orderId =>
      simp only [AdminAction.request, Env.fulfils] at hf
      exact ⟨"Failed to mark as shipped", by
        simp [AdminAction.run, handleMarkShipped, patchThenLoad_error env st _ _ hf]⟩
    | markOutForDelivery orderId =>
      simp only [AdminAction.request, Env.fulfils] at hf
      exact ⟨"Failed to mark as out for delivery", by
        simp [AdminAction.run, handleMarkOutForDelivery, patchThenLoad_error env st _ _ hf]⟩
    | markDelivered orderId =>
      simp only [AdminAction.request, Env.fulfils] at hf
      exact ⟨"Failed to mark as delivered", by
        simp [AdminAction.run, handleMarkDelivered, patchThenLoad_error env st _ _ hf]⟩
    | resolveAlert alertId =>
      simp only [AdminAction.request, Env.fulfils] at hf
      exact ⟨"Failed to resolve alert", by
        simp [AdminAction.run, handleResolveAlert, patchThenLoad_error env st _ _ hf]⟩
  · intro hl
    rw [loadData_of_not_loads env st hl]
    exact ⟨rfl, rfl, rfl⟩

/-- C15, as stated, fails: on the first load with the alerts endpoint down,
`loading` starts true and `loadData` ends with it false, so the view leaves
the loading screen. -/
theorem loadData_keeps_loading_counterexample :
    alertsDown.loads = false
    ∧ rendersLoadingScreen State.init = true
    ∧ (loadData alertsDown State.init).1.loading = false
    ∧ rendersLoadingScreen (loadData alertsDown State.init).1 = false := by
  decide

/-- C15, amended: when one of the three fetches is rejected, all three
requests have been sent, none of the three collections is replaced, and
`loading` is set to false, so the view leaves the loading screen and shows
the collections it had. -/
theorem loadData_rejected (env : Env) (st : State) (hrej : env.loads = false) :
    (loadData env st).2.filter Effect.isRequest
        = [.request .getOrders, .request .getMessages, .request .getAlerts]
    ∧ (loadData env st).1.orders = st.orders
    ∧ (loadData env st).1.messages = st.messages
    ∧ (loadData env st).1.alerts = st.alerts
    ∧ (loadData env st).1.loading = false
    ∧ rendersLoadingScreen (loadData env st).1 = false := by
  rw [loadData_of_not_loads env st hrej]
  exact ⟨rfl, rfl, rfl, rfl, rfl, rfl⟩

/-- Witness for C15 (amended): the first load with the alerts endpoint down. -/
theorem loadData_rejected_witness :
    alertsDown.loads = false
    ∧ (loadData alertsDown State.init).2.filter Effect.isRequest
        = [.request .getOrders, .request .getMessages, .request .getAlerts]
    ∧ (loadData alertsDown State.init).1.orders = State.init.orders
    ∧ (loadData alertsDown State.init).1.messages = State.init.messages
    ∧ (loadData alertsDown State.init).1.alerts = State.init.alerts
    ∧ (loadData alertsDown State.init).1.loading = false
    ∧ rendersLoadingScreen (loadData alertsDown State.init).1 = false :=
  ⟨rfl, loadData_rejected alertsDown State.init rfl⟩

/-- C16: when the operator declines the prompt, `handleCancelOrder` shows the
prompt and does nothing else: no request (neither the cancellation nor a
fetch) and no state change.  For any answer, the trace starts with the prompt
and a request appears in it only if the prompt was accepted. -/
theorem handleCancelOrder_needs_confirmation (env other : Env) (st : State)
    (orderId alertId : String) (hdeclined : env.confirm = false) :
    (handleCancelOrder env st orderId alertId).2 = [.confirm cancelPrompt]
    ∧ (handleCancelOrder env st orderId alertId).2.filter Effect.isRequest = []
    ∧ (handleCancelOrder env st orderId alertId).1 = st
    ∧ (handleCancelOrder other st orderId alertId).2.head? = some (.confirm cancelPrompt)
    ∧ (∀ r : Request, Effect.request r ∈ (handleCancelOrder other st orderId alertId).2 →
        other.confirm = true) := by
  refine ⟨?_, ?_, ?_, ?_, ?_⟩
  · simp [handleCancelOrder, hdeclined]
  · simp [handleCancelOrder, hdeclined, List.filter_cons, Effect.isRequest]
  · simp [handleCancelOrder, hdeclined]
  · unfold handleCancelOrder
    cases other.confirm
    · simp
    · cases other.mutate (.cancelOrder orderId) <;> simp
  · intro r hr
    cases hc : other.confirm
    · simp [handleCancelOrder, hc] at hr
    · rfl

/-- Witness for C16: an operator who declines, on a server that would have
cancelled the order. -/
theorem handleCancelOrder_needs_confirmation_witness :
    operatorDeclines.confirm = false
    ∧ (handleCancelOrder operatorDeclines State.init "order-1" "alert-1").2
        = [.confirm cancelPrompt]
    ∧ (handleCancelOrder operatorDeclines State.init "order-1" "alert-1").2.filter
        Effect.isRequest = []
    ∧ (handleCancelOrder operatorDeclines State.init "order-1" "alert-1").1 = State.init
    ∧ (handleCancelOrder alertsDown State.init "order-1" "alert-1").2.head?
        = some (.confirm cancelPrompt)
    ∧ (∀ r : Request,
        Effect.request r ∈ (handleCancelOrder alertsDown State.init "order-1" "alert-1").2 →
        alertsDown.confirm = true) :=
  ⟨rfl, handleCancelOrder_needs_confirmation operatorDeclines alertsDown State.init
    "order-1" "alert-1" rfl⟩

end AdminDashboard
